import Mathlib

/-
Verification of data_diff/cloud/data_source.py.

The polling loop of _test_data_source is embedded with an explicit
discrete clock: poll round-trip durations and sleep durations advance
the clock, mirroring time.monotonic readings in the source.  The loop
is written with fuel; totality with the fixed fuel budget is proved
below, so the fuel is not an assumption of any claim.
-/

namespace DataSource

/-- Modelled from the spec: the status enum of `datafold_api.TestDataSourceStatus`
(the module is not among the sources); the spec lists DONE, FAILED, SKIP. -/
inductive TestDataSourceStatus where
  | done
  | failed
  | skip
deriving DecidableEq, Repr

/-- Modelled from the spec: the `result` part of one entry returned by
`fetchTestJobStatus`, a pair of a status and a message. -/
structure TTestResult where
  status : TestDataSourceStatus
  message : String
deriving DecidableEq, Repr

/-- Modelled from the spec: one entry of a poll response,
`{name, status, result: {status, message}}`; the source compares the
outer `status` field with the string "done". -/
structure TTestEntry where
  name : String
  status : String
  result : TTestResult
deriving DecidableEq, Repr

/-- `TDataSourceTestStage` from the source: one finished or skipped
sub-check in the returned list. -/
structure TDataSourceTestStage where
  name : String
  status : TestDataSourceStatus
  description : String
deriving DecidableEq, Repr

/-- The fixed set of tracked sub-check names, `checked_tests` in the source
(a Python set literal, modelled as a duplicate-free list). -/
def trackedTests : List String := ["connection", "temp_schema", "schema_download"]

/-- The SKIP description string built in the timeout branch of the source. -/
def skipDesc (timeout : Nat) : String := s!"Does not complete in {timeout} seconds"

/-- The stage appended for a name still pending when the deadline passes. -/
def skipStage (timeout : Nat) (n : String) : TDataSourceTestStage :=
  ⟨n, TestDataSourceStatus.skip, skipDesc timeout⟩

/-- The inner `for test in tests` loop of `_test_data_source`: entries whose
name is not pending are ignored; a pending entry with outer status "done"
is removed from the pending list and appended to the results. -/
def processTests : List TTestEntry → List String → List TDataSourceTestStage →
    List String × List TDataSourceTestStage
  | [], checked, results => (checked, results)
  | t :: ts, checked, results =>
    if t.name ∈ checked then
      if t.status = "done" then
        processTests ts (checked.erase t.name)
          (results ++ [⟨t.name, t.result.status, t.result.message⟩])
      else
        processTests ts checked results
    else
      processTests ts checked results

/-- Everything observable about one run of the polling loop: the returned
list, the final clock reading, the number of polls issued, the sleep
durations performed, the clock readings at each deadline check, and
whether the loop ended through the timeout branch. -/
structure RunTrace where
  results : List TDataSourceTestStage
  finalClock : Nat
  polls : Nat
  sleeps : List Nat
  checks : List Nat
  timedOut : Bool
deriving DecidableEq, Repr

/-- The `while True` loop of `_test_data_source`.  `pollResp i` is the
response of the i-th poll and `pollDur i` its round-trip duration;
`clock` is the elapsed monotonic time, `seconds` the current backoff
delay.  The completion test precedes the deadline test, and the deadline
test precedes the sleep, exactly as in the source. -/
def testLoop (pollResp : Nat → List TTestEntry) (pollDur : Nat → Nat) (timeout : Nat) :
    Nat → List String → List TDataSourceTestStage → Nat → Nat → Nat →
    List Nat → List Nat → Option RunTrace
  | 0, _, _, _, _, _, _, _ => none
  | fuel + 1, checked, results, clock, seconds, pollIdx, sleeps, checks =>
    let clock1 := clock + pollDur pollIdx
    let p := processTests (pollResp pollIdx) checked results
    if p.1.isEmpty then
      some ⟨p.2, clock1, pollIdx + 1, sleeps, checks, false⟩
    else if timeout < clock1 then
      some ⟨p.2 ++ p.1.map (skipStage timeout), clock1, pollIdx + 1, sleeps,
            checks ++ [clock1], true⟩
    else
      testLoop pollResp pollDur timeout fuel p.1 p.2 (clock1 + seconds) (seconds * 2)
        (pollIdx + 1) (sleeps ++ [seconds]) (checks ++ [clock1])

/-- `_test_data_source` after job submission: the loop started on the three
tracked names with delay 1 and clock 0.  The fuel `timeout + 2` is enough
for every input (proved below). -/
def testDataSource (pollResp : Nat → List TTestEntry) (pollDur : Nat → Nat)
    (timeout : Nat) : Option RunTrace :=
  testLoop pollResp pollDur timeout (timeout + 2) trackedTests [] 0 1 0 [] []

/-- Python `value.split(".")` on the character level: splits a character
list at every dot, keeping empty pieces. -/
def splitDot : List Char → List (List Char)
  | [] => [[]]
  | c :: cs =>
    match splitDot cs with
    | [] => [[]]
    | p :: ps => if c = '.' then [] :: p :: ps else (c :: p) :: ps

/-- `TemporarySchemaPrompt.process_response`: raises InvalidResponse unless
splitting the value at dots yields exactly two parts. -/
def process_response (value : String) : Except String String :=
  if (splitDot value.data).length ≠ 2 then
    Except.error "Temporary schema should has a format <database>.<schema>"
  else
    Except.ok value

/-- `_validate_temp_schema` from the source: the same two-part test, raising
ValueError on failure. -/
def _validate_temp_schema (temp_schema : String) : Except String Unit :=
  if (splitDot temp_schema.data).length ≠ 2 then
    Except.error "Temporary schema should has a format <database>.<schema>"
  else
    Except.ok ()

@[simp]
theorem skipStage_name (timeout : Nat) (n : String) : (skipStage timeout n).name = n := rfl

@[simp]
theorem skipStage_status (timeout : Nat) (n : String) :
    (skipStage timeout n).status = TestDataSourceStatus.skip := rfl

theorem processTests_perm (tests : List TTestEntry) :
    ∀ checked results,
      ((processTests tests checked results).2.map TDataSourceTestStage.name ++
        (processTests tests checked results).1).Perm
        (results.map TDataSourceTestStage.name ++ checked) := by
  induction tests with
  | nil => intro checked results; simp [processTests]
  | cons t ts ih =>
    intro checked results
    by_cases hmem : t.name ∈ checked
    · by_cases hdone : t.status = "done"
      · rw [processTests, if_pos hmem, if_pos hdone]
        refine (ih _ _).trans ?_
        rw [List.map_append]
        simp only [List.map_cons, List.map_nil, List.append_assoc, List.singleton_append]
        exact (results.map TDataSourceTestStage.name).perm_append_left_iff.mpr
          (List.perm_cons_erase hmem).symm
      · rw [processTests, if_pos hmem, if_neg hdone]; exact ih _ _
    · rw [processTests, if_neg hmem]; exact ih _ _

theorem processTests_results_mem (tests : List TTestEntry) :
    ∀ checked results r, r ∈ (processTests tests checked results).2 →
      r ∈ results ∨ ∃ t, t ∈ tests ∧ r.status = t.result.status := by
  induction tests with
  | nil => intro checked results r h; exact Or.inl (by simpa [processTests] using h)
  | cons t ts ih =>
    intro checked results r h
    by_cases hmem : t.name ∈ checked
    · by_cases hdone : t.status = "done"
      · rw [processTests, if_pos hmem, if_pos hdone] at h
        rcases ih _ _ _ h with hin | ⟨u, hu, hs⟩
        · rcases List.mem_append.mp hin with hin | hin
          · exact Or.inl hin
          · refine Or.inr ⟨t, List.mem_cons_self .., ?_⟩
            simp only [List.mem_singleton] at hin
            subst hin; rfl
        · exact Or.inr ⟨u, List.mem_cons_of_mem _ hu, hs⟩
      · rw [processTests, if_pos hmem, if_neg hdone] at h
        rcases ih _ _ _ h with hin | ⟨u, hu, hs⟩
        · exact Or.inl hin
        · exact Or.inr ⟨u, List.mem_cons_of_mem _ hu, hs⟩
    · rw [processTests, if_neg hmem] at h
      rcases ih _ _ _ h with hin | ⟨u, hu, hs⟩
      · exact Or.inl hin
      · exact Or.inr ⟨u, List.mem_cons_of_mem _ hu, hs⟩

theorem processTests_no_done (tests : List TTestEntry) :
    ∀ checked results,
      (∀ t ∈ tests, t.name ∈ checked → t.status ≠ "done") →
      processTests tests checked results = (checked, results) := by
  induction tests with
  | nil => intro checked results _; rfl
  | cons t ts ih =>
    intro checked results hno
    by_cases hmem : t.name ∈ checked
    · rw [processTests, if_pos hmem,
        if_neg (hno t (List.mem_cons_self ..) hmem)]
      exact ih _ _ fun u hu => hno u (List.mem_cons_of_mem _ hu)
    · rw [processTests, if_neg hmem]
      exact ih _ _ fun u hu => hno u (List.mem_cons_of_mem _ hu)

theorem testLoop_total (pollResp : Nat → List TTestEntry) (pollDur : Nat → Nat)
    (timeout : Nat) :
    ∀ fuel checked results clock seconds pollIdx sleeps checks,
      1 ≤ fuel → 1 ≤ seconds → timeout + 2 ≤ fuel + clock →
      (testLoop pollResp pollDur timeout fuel checked results clock seconds
        pollIdx sleeps checks).isSome = true := by
  intro fuel
  induction fuel with
  | zero => intro _ _ _ _ _ _ _ h1 _ _; omega
  | succ f ih =>
    intro checked results clock seconds pollIdx sleeps checks _ hsec hcl
    rw [testLoop]
    cases hE : (processTests (pollResp pollIdx) checked results).1.isEmpty with
    | true => simp [hE]
    | false =>
      by_cases ht : timeout < clock + pollDur pollIdx
      · simp [hE, ht]
      · simp only [hE, Bool.false_eq_true, if_false, if_neg ht]
        exact ih _ _ _ _ _ _ _ (by omega) (by omega) (by omega)

theorem testDataSource_total (pollResp : Nat → List TTestEntry) (pollDur : Nat → Nat)
    (timeout : Nat) :
    ∃ tr, testDataSource pollResp pollDur timeout = some tr := by
  have h := testLoop_total pollResp pollDur timeout (timeout + 2) trackedTests [] 0 1 0 [] []
    (by omega) (by omega) (by omega)
  exact Option.isSome_iff_exists.mp h

theorem testLoop_perm (pollResp : Nat → List TTestEntry) (pollDur : Nat → Nat)
    (timeout : Nat) :
    ∀ fuel checked results clock seconds pollIdx sleeps checks tr,
      testLoop pollResp pollDur timeout fuel checked results clock seconds pollIdx
        sleeps checks = some tr →
      ((results.map TDataSourceTestStage.name ++ checked).Perm trackedTests) →
      (tr.results.map TDataSourceTestStage.name).Perm trackedTests := by
  intro fuel
  induction fuel with
  | zero =>
    intro checked results clock seconds pollIdx sleeps checks tr h
    exact absurd h (by simp [testLoop])
  | succ f ih =>
    intro checked results clock seconds pollIdx sleeps checks tr h hinv
    rw [testLoop] at h
    have hperm := processTests_perm (pollResp pollIdx) checked results
    cases hE : (processTests (pollResp pollIdx) checked results).1.isEmpty with
    | true =>
      simp only [hE, if_true] at h
      obtain rfl : _ = tr := Option.some.injEq .. ▸ h
      have h1 : (processTests (pollResp pollIdx) checked results).1 = [] :=
        List.isEmpty_iff.mp hE
      rw [h1, List.append_nil] at hperm
      exact hperm.trans hinv
    | false =>
      by_cases ht : timeout < clock + pollDur pollIdx
      · simp only [hE, Bool.false_eq_true, if_false, if_pos ht] at h
        obtain rfl : _ = tr := Option.some.injEq .. ▸ h
        simp only [List.map_append, List.map_map]
        have h2 : (List.map (TDataSourceTestStage.name ∘ skipStage timeout)
            (processTests (pollResp pollIdx) checked results).1) =
            (processTests (pollResp pollIdx) checked results).1 := by
          simp [Function.comp_def]
        rw [h2]
        exact hperm.trans hinv
      · simp only [hE, Bool.false_eq_true, if_false, if_neg ht] at h
        exact ih _ _ _ _ _ _ _ _ h (hperm.trans hinv)

theorem testLoop_sleeps (pollResp : Nat → List TTestEntry) (pollDur : Nat → Nat)
    (timeout : Nat) :
    ∀ fuel checked results clock seconds pollIdx sleeps checks tr k,
      testLoop pollResp pollDur timeout fuel checked results clock seconds pollIdx
        sleeps checks = some tr →
      seconds = 2 ^ k →
      sleeps = (List.range k).map (fun i => 2 ^ i) →
      pollIdx = k →
      tr.sleeps = (List.range tr.sleeps.length).map (fun i => 2 ^ i) ∧
        tr.sleeps.length + 1 = tr.polls := by
  intro fuel
  induction fuel with
  | zero =>
    intro checked results clock seconds pollIdx sleeps checks tr k h
    exact absurd h (by simp [testLoop])
  | succ f ih =>
    intro checked results clock seconds pollIdx sleeps checks tr k h hsec hsl hpi
    rw [testLoop] at h
    cases hE : (processTests (pollResp pollIdx) checked results).1.isEmpty with
    | true =>
      simp only [hE, if_true] at h
      obtain rfl : _ = tr := Option.some.injEq .. ▸ h
      subst hsl hpi
      constructor
      · simp
      · simp
    | false =>
      by_cases ht : timeout < clock + pollDur pollIdx
      · simp only [hE, Bool.false_eq_true, if_false, if_pos ht] at h
        obtain rfl : _ = tr := Option.some.injEq .. ▸ h
        subst hsl hpi
        constructor
        · simp
        · simp
      · simp only [hE, Bool.false_eq_true, if_false, if_neg ht] at h
        refine ih _ _ _ _ _ _ _ _ (k + 1) h ?_ ?_ ?_
        · rw [hsec, pow_succ]
        · rw [hsl, hsec, List.range_succ, List.map_append, List.map_singleton]
        · rw [hpi]

theorem testLoop_clock (pollResp : Nat → List TTestEntry) (pollDur : Nat → Nat)
    (timeout : Nat) :
    ∀ fuel checked results clock seconds pollIdx sleeps checks tr,
      testLoop pollResp pollDur timeout fuel checked results clock seconds pollIdx
        sleeps checks = some tr →
      seconds ≤ clock + 1 →
      clock ≤ 2 * timeout + 1 →
      pollIdx = checks.length →
      (∀ c ∈ checks, c ≤ timeout) →
      tr.finalClock ≤ 2 * timeout + 1 + pollDur (tr.polls - 1) ∧
        tr.polls ≤ tr.checks.length + 1 ∧
        ∃ cs, (tr.checks = cs ∨ tr.checks = cs ++ [tr.finalClock]) ∧
          ∀ c ∈ cs, c ≤ timeout := by
  intro fuel
  induction fuel with
  | zero =>
    intro checked results clock seconds pollIdx sleeps checks tr h
    exact absurd h (by simp [testLoop])
  | succ f ih =>
    intro checked results clock seconds pollIdx sleeps checks tr h hsec hcl hpi hck
    rw [testLoop] at h
    cases hE : (processTests (pollResp pollIdx) checked results).1.isEmpty with
    | true =>
      simp only [hE, if_true] at h
      obtain rfl : _ = tr := Option.some.injEq .. ▸ h
      refine ⟨by simp; omega, by simp [hpi], checks, Or.inl rfl, hck⟩
    | false =>
      by_cases ht : timeout < clock + pollDur pollIdx
      · simp only [hE, Bool.false_eq_true, if_false, if_pos ht] at h
        obtain rfl : _ = tr := Option.some.injEq .. ▸ h
        refine ⟨by simp; omega, by simp [hpi], checks, Or.inr rfl, hck⟩
      · simp only [hE, Bool.false_eq_true, if_false, if_neg ht] at h
        refine ih _ _ _ _ _ _ _ _ h (by omega) (by omega) (by simp [hpi]) ?_
        intro c hc
        rcases List.mem_append.mp hc with hc | hc
        · exact hck c hc
        · simp only [List.mem_singleton] at hc
          omega

theorem testLoop_no_done (pollResp : Nat → List TTestEntry) (pollDur : Nat → Nat)
    (timeout : Nat)
    (hnd : ∀ i t, t ∈ pollResp i → t.name ∈ trackedTests → t.status ≠ "done") :
    ∀ fuel results clock seconds pollIdx sleeps checks tr,
      testLoop pollResp pollDur timeout fuel trackedTests results clock seconds
        pollIdx sleeps checks = some tr →
      tr.results = results ++ trackedTests.map (skipStage timeout) ∧
        tr.timedOut = true := by
  intro fuel
  induction fuel with
  | zero =>
    intro results clock seconds pollIdx sleeps checks tr h
    exact absurd h (by simp [testLoop])
  | succ f ih =>
    intro results clock seconds pollIdx sleeps checks tr h
    rw [testLoop] at h
    have hP : processTests (pollResp pollIdx) trackedTests results =
        (trackedTests, results) :=
      processTests_no_done _ _ _ (fun t htm => hnd pollIdx t htm)
    rw [hP] at h
    have hne : (trackedTests, results).1.isEmpty = false := by
      simp [trackedTests]
    rw [hne] at h
    by_cases ht : timeout < clock + pollDur pollIdx
    · simp only [Bool.false_eq_true, if_false, if_pos ht] at h
      obtain rfl : _ = tr := Option.some.injEq .. ▸ h
      exact ⟨rfl, rfl⟩
    · simp only [Bool.false_eq_true, if_false, if_neg ht] at h
      exact ih _ _ _ _ _ _ _ h

theorem testLoop_no_skip (pollResp : Nat → List TTestEntry) (pollDur : Nat → Nat)
    (timeout : Nat)
    (hns : ∀ i t, t ∈ pollResp i → t.result.status ≠ TestDataSourceStatus.skip) :
    ∀ fuel checked results clock seconds pollIdx sleeps checks tr,
      testLoop pollResp pollDur timeout fuel checked results clock seconds pollIdx
        sleeps checks = some tr →
      tr.timedOut = false →
      (∀ r ∈ results, r.status ≠ TestDataSourceStatus.skip) →
      ∀ r ∈ tr.results, r.status ≠ TestDataSourceStatus.skip := by
  intro fuel
  induction fuel with
  | zero =>
    intro checked results clock seconds pollIdx sleeps checks tr h
    exact absurd h (by simp [testLoop])
  | succ f ih =>
    intro checked results clock seconds pollIdx sleeps checks tr h hto hres
    have hstep : ∀ r ∈ (processTests (pollResp pollIdx) checked results).2,
        r.status ≠ TestDataSourceStatus.skip := by
      intro r hr
      rcases processTests_results_mem (pollResp pollIdx) checked results r hr with
        hin | ⟨t, htm, hs⟩
      · exact hres r hin
      · rw [hs]; exact hns pollIdx t htm
    rw [testLoop] at h
    cases hE : (processTests (pollResp pollIdx) checked results).1.isEmpty with
    | true =>
      simp only [hE, if_true] at h
      obtain rfl : _ = tr := Option.some.injEq .. ▸ h
      exact hstep
    | false =>
      by_cases ht : timeout < clock + pollDur pollIdx
      · simp only [hE, Bool.false_eq_true, if_false, if_pos ht] at h
        obtain rfl : _ = tr := Option.some.injEq .. ▸ h
        exact absurd hto (by simp)
      · simp only [hE, Bool.false_eq_true, if_false, if_neg ht] at h
        exact ih _ _ _ _ _ _ _ _ h hto hstep

/-- C1: for every sequence of poll responses (stale or duplicate entries for
an already-resolved name, unknown names, non-"done" statuses included),
every poll duration assignment and every timeout, _test_data_source
returns a result list with exactly one TDataSourceTestStage per tracked
sub-check name: length exactly 3 and the names a permutation of
connection, temp_schema, schema_download, so no duplicates and no
omissions on every completion or timeout path. -/
theorem claim_C1_exactly_one_stage_per_name
    (pollResp : Nat → List TTestEntry) (pollDur : Nat → Nat) (timeout : Nat) :
    ∃ tr, testDataSource pollResp pollDur timeout = some tr ∧
      tr.results.length = 3 ∧
      (tr.results.map TDataSourceTestStage.name).Perm trackedTests := by
  obtain ⟨tr, htr⟩ := testDataSource_total pollResp pollDur timeout
  have hperm := testLoop_perm pollResp pollDur timeout (timeout + 2) trackedTests []
    0 1 0 [] [] tr htr (by simp)
  refine ⟨tr, htr, ?_, hperm⟩
  simpa [trackedTests] using hperm.length_eq

/-- C2 counterexample: with timeout 1 and instantaneous polls that never
report progress, the loop ends at clock 3, exceeding the claimed bound of
the timeout plus one in-flight poll round-trip, which is 1 + 0 here: the
final backoff sleep is not covered by that bound. -/
theorem claim_C2_counterexample :
    (testDataSource (fun _ => []) (fun _ => 0) 1).map RunTrace.finalClock = some 3 ∧
      1 + 0 < 3 :=
  ⟨rfl, by norm_num⟩

/-- C2 (amended): for every timeout and every sequence of poll responses the
polling loop terminates; its total running time never exceeds twice the
timeout plus one, plus the final in-flight poll round-trip; and no poll is
issued after the deadline has been confirmed exceeded on an iteration:
every deadline check except possibly the final one observes a clock at
most the timeout, and at most one poll follows each passed check. -/
theorem claim_C2_amended_time_bound
    (pollResp : Nat → List TTestEntry) (pollDur : Nat → Nat) (timeout : Nat) :
    ∃ tr, testDataSource pollResp pollDur timeout = some tr ∧
      tr.finalClock ≤ 2 * timeout + 1 + pollDur (tr.polls - 1) ∧
      tr.polls ≤ tr.checks.length + 1 ∧
      ∃ cs, (tr.checks = cs ∨ tr.checks = cs ++ [tr.finalClock]) ∧
        ∀ c ∈ cs, c ≤ timeout := by
  obtain ⟨tr, htr⟩ := testDataSource_total pollResp pollDur timeout
  have hb := testLoop_clock pollResp pollDur timeout (timeout + 2) trackedTests []
    0 1 0 [] [] tr htr (by omega) (by omega) rfl (by simp)
  exact ⟨tr, htr, hb⟩

/-- C3: if no poll response ever reports a tracked sub-check with outer
status "done", the function still returns successfully after the timeout,
with the result list being exactly one SKIP stage per tracked name whose
description contains the configured timeout value. -/
theorem claim_C3_timeout_all_skip
    (pollResp : Nat → List TTestEntry) (pollDur : Nat → Nat) (timeout : Nat)
    (hnd : ∀ i t, t ∈ pollResp i → t.name ∈ trackedTests → t.status ≠ "done") :
    (testDataSource pollResp pollDur timeout).map
        (fun tr => (tr.results, tr.timedOut)) =
      some (trackedTests.map (skipStage timeout), true) ∧
      (trackedTests.map (skipStage timeout)).length = 3 ∧
      (trackedTests.map (skipStage timeout)).map TDataSourceTestStage.status =
        [TestDataSourceStatus.skip, TestDataSourceStatus.skip,
          TestDataSourceStatus.skip] ∧
      skipDesc timeout = "Does not complete in " ++ toString timeout ++ " seconds" := by
  obtain ⟨tr, htr⟩ := testDataSource_total pollResp pollDur timeout
  obtain ⟨hres, hto⟩ := testLoop_no_done pollResp pollDur timeout hnd (timeout + 2)
    [] 0 1 0 [] [] tr htr
  rw [List.nil_append] at hres
  refine ⟨?_, by simp [trackedTests], by simp [trackedTests], ?_⟩
  · rw [htr]
    simp [hres, hto]
  · show "Does not complete in " ++ (toString timeout ++ " seconds") = _
    rw [String.append_assoc]

/-- C3 witness: a concrete run with timeout 2 in which the poll responses
are always empty. -/
theorem claim_C3_timeout_all_skip_witness :
    (testDataSource (fun _ => []) (fun _ => 0) 2).map
        (fun tr => (tr.results, tr.timedOut)) =
      some (trackedTests.map (skipStage 2), true) ∧
      (trackedTests.map (skipStage 2)).length = 3 ∧
      (trackedTests.map (skipStage 2)).map TDataSourceTestStage.status =
        [TestDataSourceStatus.skip, TestDataSourceStatus.skip,
          TestDataSourceStatus.skip] ∧
      skipDesc 2 = "Does not complete in " ++ toString 2 ++ " seconds" :=
  claim_C3_timeout_all_skip (fun _ => []) (fun _ => 0) 2 (by intro i t ht; simp at ht)

/-- C4: within a single call the sleep delays are exactly 1, 2, 4, 8, and so
on: the sleep list equals the doubling sequence starting at 1, uncapped,
with one sleep after every poll except the final one. -/
theorem claim_C4_backoff_doubling
    (pollResp : Nat → List TTestEntry) (pollDur : Nat → Nat) (timeout : Nat) :
    ∃ tr, testDataSource pollResp pollDur timeout = some tr ∧
      tr.sleeps = (List.range tr.sleeps.length).map (fun i => 2 ^ i) ∧
      tr.sleeps.length + 1 = tr.polls := by
  obtain ⟨tr, htr⟩ := testDataSource_total pollResp pollDur timeout
  have hs := testLoop_sleeps pollResp pollDur timeout (timeout + 2) trackedTests []
    0 1 0 [] [] tr 0 htr rfl rfl rfl
  exact ⟨tr, htr, hs⟩

/-- C5 counterexample: all three sub-checks are reported "done" on the very
first poll, at clock 0, far before the timeout of 64, yet the returned
list consists of three SKIP results, because the remotely reported result
status is copied into the stage unchanged. -/
theorem claim_C5_counterexample :
    (testDataSource
        (fun _ =>
          [⟨"connection", "done", ⟨TestDataSourceStatus.skip, "m"⟩⟩,
            ⟨"temp_schema", "done", ⟨TestDataSourceStatus.skip, "m"⟩⟩,
            ⟨"schema_download", "done", ⟨TestDataSourceStatus.skip, "m"⟩⟩])
        (fun _ => 0) 64).map
        (fun tr => (tr.timedOut, tr.finalClock,
          tr.results.map TDataSourceTestStage.status)) =
      some (false, 0,
        [TestDataSourceStatus.skip, TestDataSourceStatus.skip,
          TestDataSourceStatus.skip]) := rfl

/-- C5 (amended): if the loop completes through the all-done branch rather
than the timeout branch, and no reported result status is SKIP, then the
returned list contains zero SKIP results and the loop exits immediately on
completion without a final sleep: one sleep fewer than polls. -/
theorem claim_C5_amended_no_skip_on_completion
    (pollResp : Nat → List TTestEntry) (pollDur : Nat → Nat) (timeout : Nat)
    (tr : RunTrace)
    (htr : testDataSource pollResp pollDur timeout = some tr)
    (hdone : tr.timedOut = false)
    (hns : ∀ i t, t ∈ pollResp i → t.result.status ≠ TestDataSourceStatus.skip) :
    (tr.results.map TDataSourceTestStage.status).count TestDataSourceStatus.skip = 0 ∧
      tr.sleeps.length + 1 = tr.polls := by
  constructor
  · rw [List.count_eq_zero]
    intro hmem
    obtain ⟨r, hr, hrs⟩ := List.mem_map.mp hmem
    exact testLoop_no_skip pollResp pollDur timeout hns (timeout + 2) trackedTests
      [] 0 1 0 [] [] tr htr hdone (by simp) r hr hrs
  · exact (testLoop_sleeps pollResp pollDur timeout (timeout + 2) trackedTests []
      0 1 0 [] [] tr 0 htr rfl rfl rfl).2

/-- C5 witness: a concrete run in which all three sub-checks finish on the
first poll with result status DONE. -/
theorem claim_C5_amended_no_skip_on_completion_witness :
    ((⟨[⟨"connection", TestDataSourceStatus.done, "ok"⟩,
        ⟨"temp_schema", TestDataSourceStatus.done, "ok"⟩,
        ⟨"schema_download", TestDataSourceStatus.done, "ok"⟩], 0, 1, [], [],
        false⟩ : RunTrace).results.map TDataSourceTestStage.status).count
        TestDataSourceStatus.skip = 0 ∧
      (⟨[⟨"connection", TestDataSourceStatus.done, "ok"⟩,
        ⟨"temp_schema", TestDataSourceStatus.done, "ok"⟩,
        ⟨"schema_download", TestDataSourceStatus.done, "ok"⟩], 0, 1, [], [],
        false⟩ : RunTrace).sleeps.length + 1 =
      (⟨[⟨"connection", TestDataSourceStatus.done, "ok"⟩,
        ⟨"temp_schema", TestDataSourceStatus.done, "ok"⟩,
        ⟨"schema_download", TestDataSourceStatus.done, "ok"⟩], 0, 1, [], [],
        false⟩ : RunTrace).polls :=
  claim_C5_amended_no_skip_on_completion
    (fun _ =>
      [⟨"connection", "done", ⟨TestDataSourceStatus.done, "ok"⟩⟩,
        ⟨"temp_schema", "done", ⟨TestDataSourceStatus.done, "ok"⟩⟩,
        ⟨"schema_download", "done", ⟨TestDataSourceStatus.done, "ok"⟩⟩])
    (fun _ => 0) 64 _ rfl rfl
    (by
      intro i t ht
      simp only [List.mem_cons, List.mem_singleton] at ht
      rcases ht with rfl | rfl | rfl | h
      · simp
      · simp
      · simp
      · simp at h)

/-- Observable effects of the configuration workflow: prompter asks,
presenter renders, remote API calls.  Python control flow is embedded as
a function returning the event trace together with the outcome. -/
inductive Event where
  | renderAvailable
  | promptIntChoice
  | promptName
  | renderDataSource
  | confirmUseExisting
  | credentialPrompt (field : String)
  | promptTempSchema
  | promptFloatTolerance
  | createDataSource
  | printRecommendation
  | confirmRunTests
  | submitTestJob
  | renderTestResults
deriving DecidableEq, Repr

/-- Python exceptions that the embedded code can raise. -/
inductive PyError where
  | typeError
  | indexError
  | valueError (msg : String)
deriving DecidableEq, Repr

/-- A value collected from one prompt; its content is opaque to the
embedded logic, so the constructors only tag the Python type. -/
inductive PValue where
  | int (n : Int)
  | str (s : String)
  | bool (b : Bool)
  | float (repr : String)
deriving DecidableEq, Repr

/-- One entry of `config_schema.properties` in the source: title, optional
default, optional format marker (password masking) and type tag.  These
fields only shape the prompt presentation; the prompted value itself is
supplied by an answer oracle keyed by the parameter name. -/
structure PropData where
  title : String
  defaultVal : Option PValue
  format : Option String
  type : String
deriving DecidableEq, Repr

/-- `TCloudApiDataSourceConfigSchema` as used by the source: a display
name, the db_type key and the property dictionary (as an ordered list). -/
structure TCloudApiDataSourceConfigSchema where
  name : String
  db_type : String
  properties : List (String × PropData)
deriving DecidableEq, Repr

/-- `TCloudApiDataSource` as used by the source. -/
structure TCloudApiDataSource where
  id : Nat
  name : String
  type : String
deriving DecidableEq, Repr

/-- `TDsConfig` built by `create_ds_config`. -/
structure TDsConfig where
  name : String
  type : String
  temp_schema : String
  float_tolerance : PValue
  options : List (String × PValue)
deriving DecidableEq, Repr

/-- The module-level `DATA_SOURCE_TYPES_REQUIRED_SETTINGS` dictionary. -/
def DATA_SOURCE_TYPES_REQUIRED_SETTINGS : List (String × List String) :=
  [("bigquery", ["projectId", "jsonKeyFile", "location"]),
    ("databricks", ["host", "http_password", "database", "http_path"]),
    ("mysql", ["host", "user", "passwd", "db"]),
    ("pg", ["host", "user", "port", "password", "dbname"]),
    ("postgres_aurora", ["host", "user", "port", "password", "dbname"]),
    ("postgres_aws_rds", ["host", "user", "port", "password", "dbname"]),
    ("redshift", ["host", "user", "port", "password", "dbname"]),
    ("snowflake", ["account", "user", "password", "warehouse", "role", "default_db"])]

/-- Python `param_name not in basic_required_fields` where the right side
may be None: membership in None raises TypeError. -/
def notInNone (x : String) : Option (List String) → Except PyError Bool
  | Option.none => Except.error PyError.typeError
  | Option.some l => Except.ok (decide (x ∉ l))

/-- The `for param_name, param_data in ...properties.items()` loop of
`_parse_ds_credentials`: for every parameter, first the basic-settings
membership test (which can raise TypeError), then, unless skipped, one
prompt whose value comes from the answer oracle. -/
def parseFields (answers : String → PValue) (basic : Option (List String))
    (onlyBasic : Bool) :
    List (String × PropData) → List Event × Except PyError (List (String × PValue))
  | [] => ([], Except.ok [])
  | (pname, _pdata) :: rest =>
    match (if onlyBasic then notInNone pname basic else Except.ok false) with
    | Except.error e => ([], Except.error e)
    | Except.ok true => parseFields answers basic onlyBasic rest
    | Except.ok false =>
      match parseFields answers basic onlyBasic rest with
      | (evs, Except.error e) =>
        (Event.credentialPrompt pname :: evs, Except.error e)
      | (evs, Except.ok opts) =>
        (Event.credentialPrompt pname :: evs,
          Except.ok ((pname, answers pname) :: opts))

/-- `_parse_ds_credentials` from the source: looks up the basic required
fields for the db_type (None when the type is unknown) and walks the
property dictionary. -/
def _parse_ds_credentials (ds_config : TCloudApiDataSourceConfigSchema)
    (only_basic_settings : Bool) (answers : String → PValue) :
    List Event × Except PyError (List (String × PValue)) :=
  parseFields answers
    (DATA_SOURCE_TYPES_REQUIRED_SETTINGS.lookup ds_config.db_type)
    only_basic_settings ds_config.properties

/-- `TemporarySchemaPrompt.ask`: re-prompts until `process_response`
accepts; the list holds the successive operator answers, and an
exhausted list models an operator who never supplies a valid value. -/
def askTempSchema : List String → List Event × Option String
  | [] => ([], Option.none)
  | s :: rest =>
    if (splitDot s.data).length = 2 then ([Event.promptTempSchema], Option.some s)
    else
      match askTempSchema rest with
      | (evs, r) => (Event.promptTempSchema :: evs, r)

/-- Everything the operator would type during one pass of
`get_or_create_data_source`, including one recursion level of the
decline-and-retry flow. -/
structure Attempt where
  dbTypeNum : Nat
  dsNameAnswer : Option String
  useExisting : Bool
  fieldAnswers : String → PValue
  tempSchemaAnswers : List String
  floatTolerance : PValue
  runTests : Bool

/-- The remote service and clock behaviour visible to one call of
`get_or_create_data_source`. -/
structure Env where
  ds_configs : List TCloudApiDataSourceConfigSchema
  data_sources : List TCloudApiDataSource
  newId : Nat
  pollResp : Nat → List TTestEntry
  pollDur : Nat → Nat

/-- `create_ds_config` from the source: basic credentials, then the
temporary-schema prompt, then the float-tolerance prompt. -/
def create_ds_config_run (ds_config : TCloudApiDataSourceConfigSchema)
    (data_source_name : String) (a : Attempt) :
    List Event × Except PyError (Option TDsConfig) :=
  match _parse_ds_credentials ds_config true a.fieldAnswers with
  | (evs, Except.error e) => (evs, Except.error e)
  | (evs, Except.ok opts) =>
    match askTempSchema a.tempSchemaAnswers with
    | (evsT, Option.none) => (evs ++ evsT, Except.ok Option.none)
    | (evsT, Option.some ts) =>
      (evs ++ evsT ++ [Event.promptFloatTolerance],
        Except.ok (Option.some
          ⟨data_source_name, ds_config.db_type, ts, a.floatTolerance, opts⟩))

/-- `_check_data_source_exists` from the source. -/
def _check_data_source_exists (data_sources : List TCloudApiDataSource)
    (data_source_name : String) : Option TCloudApiDataSource :=
  match data_sources with
  | [] => Option.none
  | ds :: rest =>
    if ds.name = data_source_name then Option.some ds
    else _check_data_source_exists rest data_source_name

/-- The events of the selection header: rendering the available types,
the numbered type choice and the name prompt. -/
def headerEvents : List Event :=
  [Event.renderAvailable, Event.promptIntChoice, Event.promptName]

/-- The create-a-new-data-source tail of `get_or_create_data_source`:
collect a config, create the remote resource, render it, offer tests,
optionally run `_test_data_source` with the default timeout 64, render the
test results and raise ValueError when some result status is FAILED. -/
def runCreatePath (env : Env) (ds_config : TCloudApiDataSourceConfigSchema)
    (ds_name : String) (a : Attempt) : List Event × Except PyError (Option Nat) :=
  match create_ds_config_run ds_config ds_name a with
  | (evsC, Except.error e) => (evsC, Except.error e)
  | (evsC, Except.ok Option.none) => (evsC, Except.ok Option.none)
  | (evsC, Except.ok (Option.some _cfg)) =>
    let evs3 := evsC ++ [Event.createDataSource, Event.renderDataSource,
      Event.printRecommendation, Event.confirmRunTests]
    if a.runTests then
      match testDataSource env.pollResp env.pollDur 64 with
      | Option.none => (evs3 ++ [Event.submitTestJob], Except.ok Option.none)
      | Option.some tr =>
        if tr.results.any (fun r => decide (r.status = TestDataSourceStatus.failed))
        then
          (evs3 ++ [Event.submitTestJob, Event.renderTestResults],
            Except.error (PyError.valueError "Data source tests failed"))
        else
          (evs3 ++ [Event.submitTestJob, Event.renderTestResults],
            Except.ok (Option.some env.newId))
    else (evs3, Except.ok (Option.some env.newId))

/-- `get_or_create_data_source` from the source: the self-recursion on a
declined reuse is driven by the list of attempts; an exhausted list
models an operator who declines forever.  The outcome is the returned
data source id, ok-none for a run that never finishes prompting, or a
raised exception. -/
def run_get_or_create (env : Env) : List Attempt → List Event × Except PyError (Option Nat)
  | [] => ([], Except.ok Option.none)
  | a :: rest =>
    match env.ds_configs.get? (a.dbTypeNum - 1) with
    | Option.none => (headerEvents, Except.error PyError.indexError)
    | Option.some ds_config =>
      let ds_name := a.dsNameAnswer.getD ds_config.name
      match _check_data_source_exists env.data_sources ds_name with
      | Option.some ds =>
        let evs2 := headerEvents ++ [Event.renderDataSource, Event.confirmUseExisting]
        if a.useExisting then (evs2, Except.ok (Option.some ds.id))
        else
          match run_get_or_create env rest with
          | (evs, out) => (evs2 ++ evs, out)
      | Option.none =>
        match runCreatePath env ds_config ds_name a with
        | (evs, out) => (headerEvents ++ evs, out)

theorem splitDot_ne_nil (l : List Char) : splitDot l ≠ [] := by
  cases l with
  | nil => simp [splitDot]
  | cons c cs =>
    rw [splitDot]
    cases h : splitDot cs with
    | nil => simp
    | cons p ps => by_cases hc : c = '.' <;> simp [hc]

theorem splitDot_length (l : List Char) :
    (splitDot l).length = l.count '.' + 1 := by
  induction l with
  | nil => rfl
  | cons c cs ih =>
    rw [splitDot]
    rcases hsp : splitDot cs with _ | ⟨p, ps⟩
    · exact absurd hsp (splitDot_ne_nil cs)
    · rw [hsp] at ih
      by_cases hc : c = '.'
      · subst hc
        simp only [if_pos rfl, List.length_cons] at ih ⊢
        simp [List.count_cons, ih]
      · have hne : (c == '.') = false := beq_eq_false_iff_ne.mpr hc
        simp only [List.length_cons] at ih
        simp only [hc, if_false, List.length_cons, List.count_cons, hne,
          Bool.false_eq_true, ite_false]
        omega

/-- C7: the temporary-schema prompt validation accepts exactly the strings
that split at dots into exactly two parts, which are exactly the strings
containing exactly one dot; the same test backs _validate_temp_schema;
"mydb" is rejected and "mydb.public" is accepted. -/
theorem claim_C7_temp_schema_two_parts :
    (∀ s : String,
        process_response s = Except.ok s ↔ (splitDot s.data).length = 2) ∧
      (∀ s : String, (splitDot s.data).length = 2 ↔ s.data.count '.' = 1) ∧
      (∀ s : String,
        process_response s = Except.ok s ↔ _validate_temp_schema s = Except.ok ()) ∧
      process_response "mydb" =
        Except.error "Temporary schema should has a format <database>.<schema>" ∧
      process_response "mydb.public" = Except.ok "mydb.public" := by
  refine ⟨?_, ?_, ?_, rfl, rfl⟩
  · intro s
    by_cases h : (splitDot s.data).length = 2 <;> simp [process_response, h]
  · intro s
    rw [splitDot_length]
    omega
  · intro s
    by_cases h : (splitDot s.data).length = 2 <;>
      simp [process_response, _validate_temp_schema, h]

theorem lookup_eq_none_of_not_mem {β : Type} (key : String) :
    ∀ l : List (String × β), key ∉ l.map Prod.fst → l.lookup key = Option.none := by
  intro l
  induction l with
  | nil => intro _; rfl
  | cons kv rest ih =>
    obtain ⟨k, v⟩ := kv
    intro h
    simp only [List.map_cons, List.mem_cons] at h
    push_neg at h
    have hne : (key == k) = false := beq_eq_false_iff_ne.mpr h.1
    simp only [List.lookup, hne]
    exact ih h.2

/-- C10 counterexample: a schema of the unknown db_type "oracle" whose
property dictionary is empty makes _parse_ds_credentials return ok with
no prompts instead of raising TypeError, because the loop body that
contains the ill-typed membership test never runs. -/
theorem claim_C10_counterexample :
    _parse_ds_credentials ⟨"Oracle", "oracle", []⟩ true (fun _ => PValue.str "") =
        ([], Except.ok []) ∧
      DATA_SOURCE_TYPES_REQUIRED_SETTINGS.lookup "oracle" = Option.none :=
  ⟨rfl, rfl⟩

/-- C10 (amended): for every config schema whose db_type is not among the
eight keys of DATA_SOURCE_TYPES_REQUIRED_SETTINGS and whose property
dictionary is non-empty, _parse_ds_credentials with only_basic_settings
raises TypeError on the ill-typed membership test before prompting for
any field, and hence create_ds_config for that schema does the same. -/
theorem claim_C10_amended_unknown_type_raises
    (cfg : TCloudApiDataSourceConfigSchema) (answers : String → PValue)
    (ds_name : String) (a : Attempt) (p : String × PropData)
    (ps : List (String × PropData))
    (hkeys : cfg.db_type ∉ DATA_SOURCE_TYPES_REQUIRED_SETTINGS.map Prod.fst)
    (hprops : cfg.properties = p :: ps)
    (hans : a.fieldAnswers = answers) :
    _parse_ds_credentials cfg true answers = ([], Except.error PyError.typeError) ∧
      create_ds_config_run cfg ds_name a = ([], Except.error PyError.typeError) := by
  have hlook : DATA_SOURCE_TYPES_REQUIRED_SETTINGS.lookup cfg.db_type = Option.none :=
    lookup_eq_none_of_not_mem cfg.db_type DATA_SOURCE_TYPES_REQUIRED_SETTINGS hkeys
  obtain ⟨pname, pdata⟩ := p
  have h1 : _parse_ds_credentials cfg true answers =
      ([], Except.error PyError.typeError) := by
    rw [_parse_ds_credentials, hlook, hprops]
    rfl
  refine ⟨h1, ?_⟩
  rw [create_ds_config_run, hans, h1]

/-- C10 witness: the unknown db_type "oracle" with a one-field schema. -/
theorem claim_C10_amended_unknown_type_raises_witness :
    _parse_ds_credentials
        ⟨"Oracle", "oracle", [("host", ⟨"Host", Option.none, Option.none, "string"⟩)]⟩
        true (fun _ => PValue.str "") = ([], Except.error PyError.typeError) ∧
      create_ds_config_run
        ⟨"Oracle", "oracle", [("host", ⟨"Host", Option.none, Option.none, "string"⟩)]⟩
        "prod" ⟨1, Option.none, false, fun _ => PValue.str "", [], PValue.str "", false⟩ =
        ([], Except.error PyError.typeError) :=
  claim_C10_amended_unknown_type_raises
    ⟨"Oracle", "oracle", [("host", ⟨"Host", Option.none, Option.none, "string"⟩)]⟩
    (fun _ => PValue.str "") "prod"
    ⟨1, Option.none, false, fun _ => PValue.str "", [], PValue.str "", false⟩
    ("host", ⟨"Host", Option.none, Option.none, "string"⟩) [] (by decide) rfl rfl

/-- The full event list of one reuse-or-decline pass: header, rendering the
found data source and the reuse confirmation. -/
def reuseEvents : List Event :=
  headerEvents ++ [Event.renderDataSource, Event.confirmUseExisting]

/-- True for the events that collect credential or config values from the
operator inside `create_ds_config`. -/
def isCredentialPromptEv : Event → Bool
  | Event.credentialPrompt _ => true
  | Event.promptTempSchema => true
  | Event.promptFloatTolerance => true
  | _ => false

/-- An attempt that finds an existing data source under the prompted name
and declines to reuse it, making the workflow recurse. -/
def declinesExisting (env : Env) (d : Attempt) : Prop :=
  d.useExisting = false ∧
    ∃ cfg ds, env.ds_configs.get? (d.dbTypeNum - 1) = Option.some cfg ∧
      _check_data_source_exists env.data_sources (d.dsNameAnswer.getD cfg.name) =
        Option.some ds

theorem reuse_run_spec (env : Env) :
    ∀ declines (a : Attempt) cfg ds,
      (∀ d ∈ declines, declinesExisting env d) →
      env.ds_configs.get? (a.dbTypeNum - 1) = Option.some cfg →
      _check_data_source_exists env.data_sources (a.dsNameAnswer.getD cfg.name) =
        Option.some ds →
      a.useExisting = true →
      (run_get_or_create env (declines ++ [a])).2 = Except.ok (Option.some ds.id) ∧
        (run_get_or_create env (declines ++ [a])).1.all
          (fun e => decide (e ∈ reuseEvents)) = true := by
  intro declines
  induction declines with
  | nil =>
    intro a cfg ds _ hcfg hds hyes
    rw [List.nil_append]
    rw [run_get_or_create, hcfg]
    simp only [hds, hyes, if_true]
    exact ⟨trivial, by decide⟩
  | cons d rest ih =>
    intro a cfg ds hdec hcfg hds hyes
    obtain ⟨hno, cfg', ds', hcfg', hds'⟩ := hdec d (List.mem_cons_self ..)
    have hrest : ∀ x ∈ rest, declinesExisting env x :=
      fun x hx => hdec x (List.mem_cons_of_mem _ hx)
    obtain ⟨hout, hall⟩ := ih a cfg ds hrest hcfg hds hyes
    rcases hr : run_get_or_create env (rest ++ [a]) with ⟨evs, out⟩
    rw [hr] at hout hall
    rw [List.cons_append, run_get_or_create, hcfg']
    simp only [hds', hno, Bool.false_eq_true, if_false, hr]
    refine ⟨hout, ?_⟩
    simp only [List.all_append, Bool.and_eq_true]
    exact ⟨by decide, hall⟩

theorem mem_reuseEvents_cases {e : Event} (h : e ∈ reuseEvents) :
    isCredentialPromptEv e = false ∧ e ≠ Event.createDataSource ∧
      e ≠ Event.submitTestJob ∧ e ≠ Event.renderTestResults ∧
      e ≠ Event.confirmRunTests := by
  have h5 : e ∈ [Event.renderAvailable, Event.promptIntChoice, Event.promptName,
      Event.renderDataSource, Event.confirmUseExisting] := h
  fin_cases h5 <;> exact ⟨rfl, by decide, by decide, by decide, by decide⟩

/-- C8: in every run of get_or_create_data_source in which each selection
pass finds an existing data source under the chosen name and the operator
finally confirms reuse, the function returns that data source id, and the
trace contains no credential, temporary-schema or float prompts and no
createDataSource call. -/
theorem claim_C8_reuse_no_prompts_no_create (env : Env) (declines : List Attempt)
    (a : Attempt) (cfg : TCloudApiDataSourceConfigSchema) (ds : TCloudApiDataSource)
    (hdec : ∀ d ∈ declines, declinesExisting env d)
    (hcfg : env.ds_configs.get? (a.dbTypeNum - 1) = Option.some cfg)
    (hds : _check_data_source_exists env.data_sources (a.dsNameAnswer.getD cfg.name) =
      Option.some ds)
    (hyes : a.useExisting = true) :
    (run_get_or_create env (declines ++ [a])).2 = Except.ok (Option.some ds.id) ∧
      (run_get_or_create env (declines ++ [a])).1.filter isCredentialPromptEv = [] ∧
      (run_get_or_create env (declines ++ [a])).1.count Event.createDataSource = 0 := by
  obtain ⟨hout, hall⟩ := reuse_run_spec env declines a cfg ds hdec hcfg hds hyes
  rw [List.all_eq_true] at hall
  refine ⟨hout, ?_, ?_⟩
  · rw [List.filter_eq_nil_iff]
    intro e he
    have h2 := hall e he
    rw [decide_eq_true_eq] at h2
    simp [(mem_reuseEvents_cases h2).1]
  · rw [List.count_eq_zero]
    intro hmem
    have h2 := hall _ hmem
    rw [decide_eq_true_eq] at h2
    exact (mem_reuseEvents_cases h2).2.1 rfl

/-- C8 witness: one existing data source named "prod", found and reused. -/
theorem claim_C8_reuse_no_prompts_no_create_witness :
    (run_get_or_create
        ⟨[⟨"PostgreSQL", "pg", []⟩], [⟨5, "prod", "pg"⟩], 9, fun _ => [], fun _ => 0⟩
        ([] ++ [⟨1, Option.some "prod", true, fun _ => PValue.str "", [],
          PValue.str "", false⟩])).2 = Except.ok (Option.some 5) ∧
      (run_get_or_create
        ⟨[⟨"PostgreSQL", "pg", []⟩], [⟨5, "prod", "pg"⟩], 9, fun _ => [], fun _ => 0⟩
        ([] ++ [⟨1, Option.some "prod", true, fun _ => PValue.str "", [],
          PValue.str "", false⟩])).1.filter isCredentialPromptEv = [] ∧
      (run_get_or_create
        ⟨[⟨"PostgreSQL", "pg", []⟩], [⟨5, "prod", "pg"⟩], 9, fun _ => [], fun _ => 0⟩
        ([] ++ [⟨1, Option.some "prod", true, fun _ => PValue.str "", [],
          PValue.str "", false⟩])).1.count Event.createDataSource = 0 :=
  claim_C8_reuse_no_prompts_no_create _ [] _ ⟨"PostgreSQL", "pg", []⟩ ⟨5, "prod", "pg"⟩
    (by simp) rfl rfl rfl

/-- C9: in every run of get_or_create_data_source in which each selection
pass finds an existing data source under the chosen name and the operator
finally confirms reuse, no verification occurs: no test job is submitted,
no test-result table is rendered, and the run-tests question is never even
asked, that option being offered only after creating a new data source. -/
theorem claim_C9_reuse_never_verifies (env : Env) (declines : List Attempt)
    (a : Attempt) (cfg : TCloudApiDataSourceConfigSchema) (ds : TCloudApiDataSource)
    (hdec : ∀ d ∈ declines, declinesExisting env d)
    (hcfg : env.ds_configs.get? (a.dbTypeNum - 1) = Option.some cfg)
    (hds : _check_data_source_exists env.data_sources (a.dsNameAnswer.getD cfg.name) =
      Option.some ds)
    (hyes : a.useExisting = true) :
    (run_get_or_create env (declines ++ [a])).1.count Event.submitTestJob = 0 ∧
      (run_get_or_create env (declines ++ [a])).1.count Event.renderTestResults = 0 ∧
      (run_get_or_create env (declines ++ [a])).1.count Event.confirmRunTests = 0 := by
  obtain ⟨hout, hall⟩ := reuse_run_spec env declines a cfg ds hdec hcfg hds hyes
  rw [List.all_eq_true] at hall
  refine ⟨?_, ?_, ?_⟩
  · rw [List.count_eq_zero]
    intro hmem
    have h2 := hall _ hmem
    rw [decide_eq_true_eq] at h2
    exact (mem_reuseEvents_cases h2).2.2.1 rfl
  · rw [List.count_eq_zero]
    intro hmem
    have h2 := hall _ hmem
    rw [decide_eq_true_eq] at h2
    exact (mem_reuseEvents_cases h2).2.2.2.1 rfl
  · rw [List.count_eq_zero]
    intro hmem
    have h2 := hall _ hmem
    rw [decide_eq_true_eq] at h2
    exact (mem_reuseEvents_cases h2).2.2.2.2 rfl

/-- C9 witness: one existing data source named "prod", found and reused. -/
theorem claim_C9_reuse_never_verifies_witness :
    (run_get_or_create
        ⟨[⟨"PostgreSQL", "pg", []⟩], [⟨5, "prod", "pg"⟩], 9, fun _ => [], fun _ => 0⟩
        ([] ++ [⟨1, Option.some "prod", true, fun _ => PValue.str "", [],
          PValue.str "", false⟩])).1.count Event.submitTestJob = 0 ∧
      (run_get_or_create
        ⟨[⟨"PostgreSQL", "pg", []⟩], [⟨5, "prod", "pg"⟩], 9, fun _ => [], fun _ => 0⟩
        ([] ++ [⟨1, Option.some "prod", true, fun _ => PValue.str "", [],
          PValue.str "", false⟩])).1.count Event.renderTestResults = 0 ∧
      (run_get_or_create
        ⟨[⟨"PostgreSQL", "pg", []⟩], [⟨5, "prod", "pg"⟩], 9, fun _ => [], fun _ => 0⟩
        ([] ++ [⟨1, Option.some "prod", true, fun _ => PValue.str "", [],
          PValue.str "", false⟩])).1.count Event.confirmRunTests = 0 :=
  claim_C9_reuse_never_verifies _ [] _ ⟨"PostgreSQL", "pg", []⟩ ⟨5, "prod", "pg"⟩
    (by simp) rfl rfl rfl

theorem parseFields_events (answers : String → PValue) (basic : Option (List String))
    (onlyBasic : Bool) :
    ∀ props, ∀ e ∈ (parseFields answers basic onlyBasic props).1,
      ∃ f, e = Event.credentialPrompt f := by
  intro props
  induction props with
  | nil => intro e he; simp [parseFields] at he
  | cons kv rest ih =>
    obtain ⟨pname, pdata⟩ := kv
    intro e he
    rw [parseFields] at he
    rcases hskip : (if onlyBasic then notInNone pname basic else Except.ok false)
      with err | b
    · rw [hskip] at he
      simp at he
    · rw [hskip] at he
      rcases hrec : parseFields answers basic onlyBasic rest with ⟨evs, res⟩
      cases b
      · rw [hrec] at he
        cases res with
        | error err =>
          simp only [List.mem_cons] at he
          rcases he with rfl | hm
          · exact ⟨pname, rfl⟩
          · exact ih e (by rw [hrec]; exact hm)
        | ok opts =>
          simp only [List.mem_cons] at he
          rcases he with rfl | hm
          · exact ⟨pname, rfl⟩
          · exact ih e (by rw [hrec]; exact hm)
      · exact ih e he

theorem askTempSchema_events :
    ∀ l, ∀ e ∈ (askTempSchema l).1, e = Event.promptTempSchema := by
  intro l
  induction l with
  | nil => intro e he; simp [askTempSchema] at he
  | cons s rest ih =>
    intro e he
    rw [askTempSchema] at he
    by_cases hv : (splitDot s.data).length = 2
    · rw [if_pos hv] at he
      simpa using he
    · rw [if_neg hv] at he
      rcases hrec : askTempSchema rest with ⟨evs, r⟩
      rw [hrec] at he
      simp only [List.mem_cons] at he
      rcases he with rfl | hm
      · rfl
      · exact ih e (by rw [hrec]; exact hm)

theorem create_run_events (cfg : TCloudApiDataSourceConfigSchema) (nm : String)
    (a : Attempt) :
    ∀ e ∈ (create_ds_config_run cfg nm a).1, isCredentialPromptEv e = true := by
  intro e he
  rw [create_ds_config_run] at he
  rcases hp : _parse_ds_credentials cfg true a.fieldAnswers with ⟨evs, res⟩
  rw [hp] at he
  rw [_parse_ds_credentials] at hp
  have hev : ∀ x ∈ evs, ∃ f, x = Event.credentialPrompt f := by
    intro x hx
    exact parseFields_events a.fieldAnswers _ true cfg.properties x (by rw [hp]; exact hx)
  cases res with
  | error err =>
    obtain ⟨f, rfl⟩ := hev e he
    rfl
  | ok opts =>
    rcases ht : askTempSchema a.tempSchemaAnswers with ⟨evsT, r⟩
    have hevT : ∀ x ∈ evsT, x = Event.promptTempSchema := by
      intro x hx
      exact askTempSchema_events a.tempSchemaAnswers x (by rw [ht]; exact hx)
    rw [ht] at he
    cases r with
    | none =>
      rcases List.mem_append.mp he with hm | hm
      · obtain ⟨f, rfl⟩ := hev e hm
        rfl
      · rw [hevT e hm]; rfl
    | some ts =>
      rcases List.mem_append.mp he with hm | hm
      · rcases List.mem_append.mp hm with hm2 | hm2
        · obtain ⟨f, rfl⟩ := hev e hm2
          rfl
        · rw [hevT e hm2]; rfl
      · simp only [List.mem_singleton] at hm
        rw [hm]; rfl

theorem submit_not_in_create_events (cfg : TCloudApiDataSourceConfigSchema)
    (nm : String) (a : Attempt) :
    Event.submitTestJob ∉ (create_ds_config_run cfg nm a).1 := by
  intro h
  have h2 := create_run_events cfg nm a _ h
  simp [isCredentialPromptEv] at h2

/-- C6: _test_data_source always returns a result list, never raising on a
FAILED sub-check status; and in every run of get_or_create_data_source in
which a test job was submitted, the workflow raises the
data-source-tests-failed ValueError exactly when at least one returned
result has status FAILED, and the test-result table is rendered in every
such run, so a raise can only happen after it. -/
theorem claim_C6_failure_policy (env : Env) :
    ∀ attempts, Event.submitTestJob ∈ (run_get_or_create env attempts).1 →
      (testDataSource env.pollResp env.pollDur 64).isSome = true ∧
        ((run_get_or_create env attempts).2 =
            Except.error (PyError.valueError "Data source tests failed") ↔
          (testDataSource env.pollResp env.pollDur 64).map
            (fun tr => tr.results.any
              (fun r => decide (r.status = TestDataSourceStatus.failed))) =
            Option.some true) ∧
        Event.renderTestResults ∈ (run_get_or_create env attempts).1 := by
  intro attempts
  induction attempts with
  | nil => intro h; simp [run_get_or_create] at h
  | cons a rest ih =>
    intro hmem
    obtain ⟨trT, htrT⟩ := testDataSource_total env.pollResp env.pollDur 64
    rcases hcfg : env.ds_configs.get? (a.dbTypeNum - 1) with _ | cfg
    · rw [run_get_or_create, hcfg] at hmem
      simp [headerEvents] at hmem
    · rcases hex : _check_data_source_exists env.data_sources
        (a.dsNameAnswer.getD cfg.name) with _ | ds
      · -- create path
        rcases hC : runCreatePath env cfg (a.dsNameAnswer.getD cfg.name) a
          with ⟨evsP, outP⟩
        rw [run_get_or_create, hcfg] at hmem ⊢
        simp only [hex, hC] at hmem ⊢
        have hmemP : Event.submitTestJob ∈ evsP := by
          rcases List.mem_append.mp hmem with hm | hm
          · simp [headerEvents] at hm
          · exact hm
        rcases hcc : create_ds_config_run cfg (a.dsNameAnswer.getD cfg.name) a
          with ⟨evsC, resC⟩
        rw [runCreatePath, hcc] at hC
        have hnsub := submit_not_in_create_events cfg (a.dsNameAnswer.getD cfg.name) a
        rw [hcc] at hnsub
        cases resC with
        | error err =>
          obtain ⟨rfl, rfl⟩ : evsC = evsP ∧ Except.error err = outP := by
            simpa using hC
          exact absurd hmemP hnsub
        | ok c =>
          cases c with
          | none =>
            obtain ⟨rfl, rfl⟩ : evsC = evsP ∧ Except.ok Option.none = outP := by
              simpa using hC
            exact absurd hmemP hnsub
          | some cfg2 =>
            dsimp only at hC
            by_cases hrt : a.runTests = true
            · rw [if_pos hrt, htrT] at hC
              dsimp only at hC
              cases hfail : trT.results.any
                  (fun r => decide (r.status = TestDataSourceStatus.failed)) with
              | true =>
                rw [if_pos hfail] at hC
                obtain ⟨rfl, rfl⟩ :
                    evsC ++ [Event.createDataSource, Event.renderDataSource,
                      Event.printRecommendation, Event.confirmRunTests] ++
                      [Event.submitTestJob, Event.renderTestResults] = evsP ∧
                    Except.error (PyError.valueError "Data source tests failed") =
                      outP := by simpa using hC
                refine ⟨by rw [htrT]; rfl, ?_, ?_⟩
                · rw [htrT]
                  simp [hfail]
                · simp
              | false =>
                have hcond : ¬ ((trT.results.any
                    (fun r => decide (r.status = TestDataSourceStatus.failed))) = true) := by
                  rw [hfail]
                  exact Bool.false_ne_true
                rw [if_neg hcond] at hC
                obtain ⟨rfl, rfl⟩ :
                    evsC ++ [Event.createDataSource, Event.renderDataSource,
                      Event.printRecommendation, Event.confirmRunTests] ++
                      [Event.submitTestJob, Event.renderTestResults] = evsP ∧
                    Except.ok (Option.some env.newId) = outP := by simpa using hC
                refine ⟨by rw [htrT]; rfl, ?_, ?_⟩
                · rw [htrT]
                  simp [hfail]
                · simp
            · rw [if_neg hrt] at hC
              obtain ⟨rfl, rfl⟩ :
                  evsC ++ [Event.createDataSource, Event.renderDataSource,
                    Event.printRecommendation, Event.confirmRunTests] = evsP ∧
                  Except.ok (Option.some env.newId) = outP := by simpa using hC
              rcases List.mem_append.mp hmemP with hm | hm
              · exact absurd hm hnsub
              · simp at hm
      · -- an existing data source was found
        rw [run_get_or_create, hcfg] at hmem ⊢
        by_cases hyes : a.useExisting = true
        · simp only [hex, hyes, if_true] at hmem
          simp [headerEvents] at hmem
        · rcases hr : run_get_or_create env rest with ⟨evs, out⟩
          rw [hr] at ih
          simp only [hex, hyes, Bool.false_eq_true, if_false, hr] at hmem ⊢
          have hmemR : Event.submitTestJob ∈ evs := by
            rcases List.mem_append.mp hmem with hm | hm
            · simp [headerEvents] at hm
            · exact hm
          obtain ⟨h1, h2, h3⟩ := ih hmemR
          exact ⟨h1, h2, List.mem_append.mpr (Or.inr h3)⟩

/-- C6 witness: a fresh data source named "prod" is created and tests are
run; every sub-check times out into SKIP, none is FAILED, so the outcome
is ok and the raise-iff-FAILED equivalence holds with both sides false. -/
theorem claim_C6_failure_policy_witness :
    (testDataSource (fun _ => []) (fun _ => 0) 64).isSome = true ∧
      ((run_get_or_create
          ⟨[⟨"PostgreSQL", "pg", []⟩], [], 9, fun _ => [], fun _ => 0⟩
          [⟨1, Option.some "prod", true, fun _ => PValue.str "h", ["db.s"],
            PValue.float "0.000001", true⟩]).2 =
          Except.error (PyError.valueError "Data source tests failed") ↔
        (testDataSource (fun _ => []) (fun _ => 0) 64).map
          (fun tr => tr.results.any
            (fun r => decide (r.status = TestDataSourceStatus.failed))) =
          Option.some true) ∧
      Event.renderTestResults ∈
        (run_get_or_create
          ⟨[⟨"PostgreSQL", "pg", []⟩], [], 9, fun _ => [], fun _ => 0⟩
          [⟨1, Option.some "prod", true, fun _ => PValue.str "h", ["db.s"],
            PValue.float "0.000001", true⟩]).1 :=
  claim_C6_failure_policy
    ⟨[⟨"PostgreSQL", "pg", []⟩], [], 9, fun _ => [], fun _ => 0⟩
    [⟨1, Option.some "prod", true, fun _ => PValue.str "h", ["db.s"],
      PValue.float "0.000001", true⟩]
    (by decide)

end DataSource
